import Mathlib

/-!
# SolScout — verification of the new-coin alert loop

Shallow embedding of `src/application.py` (the richer of the two near-identical
sources; `src/bot.py` differs only in that its `send_alert` does not catch
dispatch exceptions).  The embedded functions follow the Python source line by
line:

* `load_alerted_coins` / `save_alerted_coins` — `application.py` lines 78–88;
* `evalPair` — the body of the `for pair in data.get("pairs", [])` loop,
  `application.py` lines 117–135, for a single pair;
* `runPairs` — the whole loop, threading the mutable `alerted_coins` set;
* `check_new_coins` — `application.py` lines 104–140.

Machine-level conventions: Python floats are modelled as rationals (all the
constants and comparisons involved are exact in both); instants are rationals
counting seconds since the epoch, so `datetime.fromtimestamp(ts / 1000)` is
`(ts : ℚ) / 1000`; the outcome of one `bot.send_message` dispatch is an oracle
`ok : String → Bool` indexed by the coin name being alerted.
-/

namespace SolScout

/-- A JSON value found under `volume.h24` of a pair object: either a number
(including numeric strings, which Python's `float` converts), or a value on
which `float(...)` raises (`null`, a non-numeric string, an object, ...). -/
inductive VolVal where
  | num (q : ℚ)
  | nonNumeric
deriving DecidableEq

/-- The JSON object under the `volume` key (only `h24` is read). -/
structure VolumeObj where
  h24 : Option VolVal
deriving DecidableEq

/-- The JSON object under the `baseToken` key (only `name` is read). -/
structure BaseToken where
  name : Option String
deriving DecidableEq

/-- One element of `data["pairs"]`, restricted to the fields the code reads.
`none` stands for an absent key (for `pairCreatedAt`, also for a JSON `null`:
both make `pair.get("pairCreatedAt", 0)` falsy or `0`-defaulted in a way the
subsequent `if not creation_timestamp` check treats alike, see `evalPair`). -/
structure PairSnapshot where
  chainId : Option String
  baseToken : Option BaseToken
  volume : Option VolumeObj
  pairCreatedAt : Option Int
  url : Option String
deriving DecidableEq

/-- Python exceptions that can escape the per-pair code. -/
inductive PyError where
  | keyError (key : String)
  | valueError
  | jsonDecodeError
deriving DecidableEq

/-- What one iteration of the pair loop decides: `continue`, or call
`send_alert coinName volume pairUrl` and add `coinName` to the set. -/
inductive Action where
  | skip
  | alert (coinName : String) (volume : ℚ) (pairUrl : String)
deriving DecidableEq

/-- One iteration of the loop body, `application.py` lines 117–132:

```
if pair.get("chainId") != "solana": continue
coin_name = pair["baseToken"]["name"]                 -- KeyError if absent
volume = float(pair.get("volume", {}).get("h24", 0))  -- ValueError if non-numeric
creation_timestamp = pair.get("pairCreatedAt", 0)
pair_url = pair.get("url", "N/A")
if not creation_timestamp: continue
creation_time = fromtimestamp(creation_timestamp / 1000)
age_in_minutes = (current_time - creation_time).total_seconds() / 60
if age_in_minutes <= 60 and volume > 500000 and coin_name not in alerted_coins: ...
```
-/
def evalPair (now : ℚ) (alerted : Finset String) (p : PairSnapshot) :
    Except PyError Action :=
  if p.chainId ≠ some "solana" then .ok .skip
  else
    match p.baseToken with
    | none => .error (.keyError "baseToken")
    | some bt =>
      match bt.name with
      | none => .error (.keyError "name")
      | some coinName =>
        match (p.volume.getD ⟨none⟩).h24.getD (.num 0) with
        | .nonNumeric => .error .valueError
        | .num volume =>
          let ts : Int := p.pairCreatedAt.getD 0
          if ts = 0 then .ok .skip
          else
            let creationTime : ℚ := (ts : ℚ) / 1000
            let ageInMinutes : ℚ := (now - creationTime) / 60
            if ageInMinutes ≤ 60 ∧ volume > 500000 ∧ coinName ∉ alerted then
              .ok (.alert coinName volume (p.url.getD "N/A"))
            else .ok .skip

/-- The loop's running state: the mutable `alerted_coins` set, the coin names
for which `send_alert` was invoked (in order), and the subset of those whose
dispatch actually succeeded.  `application.py`'s `send_alert` (lines 90–102)
catches every exception from `bot.send_message` and merely logs it, so a failed
dispatch is recorded in `attempts` but not in `sends`, and the loop continues
identically either way. -/
structure CycleState where
  ledger : Finset String
  attempts : List String
  sends : List String
deriving DecidableEq

/-- The pair loop, `application.py` lines 117–135, threading the state through
the iterations.  A `KeyError`/`ValueError` from the loop body propagates (it is
not a `requests.RequestException`, so nothing inside `check_new_coins` catches
it). -/
def runPairs (ok : String → Bool) (now : ℚ) :
    List PairSnapshot → CycleState → Except PyError CycleState
  | [], st => .ok st
  | p :: rest, st =>
    match evalPair now st.ledger p with
    | .error e => .error e
    | .ok .skip => runPairs ok now rest st
    | .ok (.alert coinName _ _) =>
      runPairs ok now rest
        { ledger := insert coinName st.ledger
          attempts := st.attempts ++ [coinName]
          sends := st.sends ++ (if ok coinName then [coinName] else []) }

/-- The persisted ledger file `alerted_coins.json`: absent, present but not
valid JSON, or a JSON array of strings. -/
inductive Store where
  | absent
  | corrupt
  | good (ids : List String)
deriving DecidableEq

/-- `load_alerted_coins`, `application.py` lines 78–83: if the file exists,
`set(json.load(file))`; a corrupt file makes `json.load` raise
`JSONDecodeError`, which propagates; an absent file yields `set()`. -/
def load_alerted_coins : Store → Except PyError (Finset String)
  | .absent => .ok ∅
  | .corrupt => .error .jsonDecodeError
  | .good ids => .ok ids.toFinset

/-- `save_alerted_coins`, `application.py` lines 85–88:
`json.dump(list(alerted_coins), file)` overwrites the file with the elements of
the set as a JSON array.  Python's set iteration order is unspecified; the
model fixes the canonical sorted enumeration, which has the same elements. -/
def save_alerted_coins (s : Finset String) : Store :=
  .good (s.sort (· ≤ ·))

/-- Whether the HTTP fetch of `data` raised a `requests.RequestException`, and
if not, the contents of `data.get("pairs", [])` (an absent key yields `[]`). -/
inductive FetchResult where
  | failure
  | success (pairs : List PairSnapshot)

/-- Observable outcome of one cycle: the ledger file afterwards, the
`send_alert` invocations, and the successful dispatches among them. -/
structure WorldResult where
  store : Store
  attempts : List String
  sends : List String
deriving DecidableEq

/-- `check_new_coins`, `application.py` lines 104–140.  `load_alerted_coins`
runs before the `try`, so its exceptions propagate; inside the `try` only
`requests.RequestException` (modelled as `FetchResult.failure`) is caught —
it is logged and the function returns without saving; on fetch success the
loop runs and `save_alerted_coins` is called unconditionally afterwards.
An uncaught loop exception (`.error`) aborts the cycle before the save, so
the file is left as it was. -/
def check_new_coins (ok : String → Bool) (now : ℚ) (fetch : FetchResult)
    (store : Store) : Except PyError WorldResult :=
  match load_alerted_coins store with
  | .error e => .error e
  | .ok alerted =>
    match fetch with
    | .failure => .ok ⟨store, [], []⟩
    | .success pairs =>
      match runPairs ok now pairs ⟨alerted, [], []⟩ with
      | .error e => .error e
      | .ok st => .ok ⟨save_alerted_coins st.ledger, st.attempts, st.sends⟩

/-- A fully populated snapshot, as the filter claims use one: on the target
chain, with all optional fields present and a numeric volume. -/
def mkSnapshot (name : String) (vol : ℚ) (ts : Int) (u : String) : PairSnapshot :=
  { chainId := some "solana"
    baseToken := some ⟨some name⟩
    volume := some ⟨some (.num vol)⟩
    pairCreatedAt := some ts
    url := some u }

/-- Two cycle outcomes that agree on everything except possibly the successful
dispatches. -/
def resultsAgree : Except PyError CycleState → Except PyError CycleState → Prop
  | .error e, .error e' => e = e'
  | .ok r, .ok r' => r.ledger = r'.ledger ∧ r.attempts = r'.attempts
  | _, _ => False

/-- Characterization of the iterations that call `send_alert`: the loop body
reaches the alert branch exactly when the pair is on the target chain, the
base-token name is present (otherwise a `KeyError` escapes), the volume value
converts to a number, the creation timestamp is present and non-zero, the age
check `age_in_minutes <= 60` holds (there is no lower bound in the code), the
volume is strictly above `500000`, and the name is not yet in `alerted_coins`. -/
theorem evalPair_alert_iff (now : ℚ) (L : Finset String) (p : PairSnapshot)
    (n : String) (v : ℚ) (u : String) :
    evalPair now L p = .ok (.alert n v u) ↔
      p.chainId = some "solana" ∧
      (∃ bt, p.baseToken = some bt ∧ bt.name = some n) ∧
      (p.volume.getD ⟨none⟩).h24.getD (.num 0) = .num v ∧
      p.pairCreatedAt.getD 0 ≠ 0 ∧
      u = p.url.getD "N/A" ∧
      (now - ((p.pairCreatedAt.getD 0 : Int) : ℚ) / 1000) / 60 ≤ 60 ∧
      500000 < v ∧ n ∉ L := by
  obtain ⟨c, b, vol, ts, u'⟩ := p
  by_cases hc : c = some "solana"
  · subst hc
    rcases b with _ | ⟨_ | nm⟩
    · simp [evalPair]
    · simp [evalPair]
    · cases hw : ((vol.getD ⟨none⟩).h24.getD (.num 0)) with
      | nonNumeric => simp [evalPair, hw]
      | num q =>
        by_cases ht : (ts.getD 0 : Int) = 0
        · simp [evalPair, hw, ht]
        · by_cases hcond : ((now - ((ts.getD 0 : Int) : ℚ) / 1000) / 60 ≤ 60 ∧
              500000 < q ∧ nm ∉ L)
          · obtain ⟨h1, h2, h3⟩ := hcond
            simp [evalPair, hw, ht, h1, h2, h3]
            rintro rfl rfl
            constructor
            · rintro rfl
              tauto
            · intro h
              tauto
          · simp [evalPair, hw, ht, hcond]
            rintro rfl hq rfl h4 h5
            by_contra h6
            rw [hq] at hcond
            exact hcond ⟨h4, h5, h6⟩
  · simp [evalPair, hc]

/-- The alert branch is only reached for a name not yet in the set. -/
theorem evalPair_alert_not_mem {now : ℚ} {L : Finset String} {p : PairSnapshot}
    {n : String} {v : ℚ} {u : String}
    (h : evalPair now L p = .ok (.alert n v u)) : n ∉ L :=
  ((evalPair_alert_iff now L p n v u).1 h).2.2.2.2.2.2.2

/-- A pair that reaches the alert branch against one set is skipped against any
set that already contains its name (this is what suppresses the second
occurrence of a duplicated pair inside one batch, and re-alerts across
cycles). -/
theorem evalPair_mem_skip {now : ℚ} {L : Finset String} {p : PairSnapshot}
    {n : String} {v : ℚ} {u : String} (L' : Finset String)
    (h : evalPair now L p = .ok (.alert n v u)) (hmem : n ∈ L') :
    evalPair now L' p = .ok .skip := by
  rw [evalPair_alert_iff] at h
  obtain ⟨hc, ⟨bt, hb, hn⟩, hw, ht, hu, hage, hv, hnotm⟩ := h
  simp [evalPair, hc, hb, hn, hw, ht, hmem]

/-- `send_alert` catches every dispatch exception, so the loop's control flow,
the `alerted_coins` set and the sequence of `send_alert` invocations do not
depend on which dispatches succeed. -/
theorem runPairs_dispatch_agnostic (ok ok' : String → Bool) (now : ℚ)
    (pairs : List PairSnapshot) :
    ∀ (st st' : CycleState), st.ledger = st'.ledger → st.attempts = st'.attempts →
      resultsAgree (runPairs ok now pairs st) (runPairs ok' now pairs st') := by
  induction pairs with
  | nil =>
    intro st st' hl ha
    simpa [runPairs, resultsAgree] using ⟨hl, ha⟩
  | cons p rest ih =>
    intro st st' hl ha
    rw [runPairs, runPairs, ← hl]
    cases he : evalPair now st.ledger p with
    | error e => simp [resultsAgree]
    | ok a =>
      cases a with
      | skip => exact ih st st' hl ha
      | alert n v u => exact ih _ _ (by simp [hl]) (by simp [ha])

/-- Loop invariant: the `alerted_coins` set only grows, and every name that
enters `attempts` during the run was not in the set when the run started (and
is in it afterwards). -/
theorem runPairs_ledger_attempts (ok : String → Bool) (now : ℚ)
    (pairs : List PairSnapshot) :
    ∀ (st st' : CycleState), runPairs ok now pairs st = .ok st' →
      st.ledger ⊆ st'.ledger ∧
      ∀ x ∈ st'.attempts, x ∈ st.attempts ∨ (x ∉ st.ledger ∧ x ∈ st'.ledger) := by
  induction pairs with
  | nil =>
    intro st st' h
    simp only [runPairs, Except.ok.injEq] at h
    subst h
    exact ⟨Finset.Subset.refl _, fun x hx => .inl hx⟩
  | cons p rest ih =>
    intro st st' h
    rw [runPairs] at h
    cases he : evalPair now st.ledger p with
    | error e => rw [he] at h; cases h
    | ok a =>
      cases a with
      | skip => rw [he] at h; exact ih st st' h
      | alert n v u =>
        rw [he] at h
        obtain ⟨hsub, hatt⟩ := ih _ st' h
        have hnm : n ∉ st.ledger := evalPair_alert_not_mem he
        refine ⟨(Finset.subset_insert _ _).trans hsub, ?_⟩
        intro x hx
        rcases hatt x hx with hin | ⟨hnot, hin'⟩
        · rcases List.mem_append.1 hin with h1 | h2
          · exact .inl h1
          · have hxn : x = n := by simpa using h2
            subst hxn
            exact .inr ⟨hnm, hsub (Finset.mem_insert_self _ _)⟩
        · exact .inr ⟨fun hmemx => hnot (Finset.mem_insert_of_mem hmemx), hin'⟩

/-- Evaluation of a fully populated snapshot reduces to the two numeric checks
plus the dedup check. -/
theorem evalPair_mkSnapshot (now : ℚ) (L : Finset String) (n : String) (v : ℚ)
    (ts : Int) (u : String) (hts : ts ≠ 0) :
    evalPair now L (mkSnapshot n v ts u) =
      if (now - (ts : ℚ) / 1000) / 60 ≤ 60 ∧ 500000 < v ∧ n ∉ L then
        .ok (.alert n v u)
      else .ok .skip := by
  simp [evalPair, mkSnapshot, hts]

/-- Counterexample to C1 at a concrete input: the only pair in the batch
qualifies, its dispatch fails (the oracle refuses every send, so `sends = []`),
yet `"FAILCOIN"` is added to the ledger and persisted, so the next cycle will
not retry it. -/
theorem notify_failure_still_persisted_cex :
    check_new_coins (fun _ => false) 600
        (.success [mkSnapshot "FAILCOIN" 600000 600000 "u"]) .absent
      = .ok ⟨.good ["FAILCOIN"], ["FAILCOIN"], []⟩ := by
  simp [check_new_coins, load_alerted_coins, runPairs, evalPair, mkSnapshot,
    save_alerted_coins]
  norm_num [Finset.sort_singleton]

/-- C1 (amended): a dispatch failure does not keep the identifier out of the
Alert Ledger. `send_alert` swallows the exception and `check_new_coins` adds
the name unconditionally, so the persisted ledger and the sequence of
notification attempts are independent of which dispatches succeed — a pair
whose notification failed is not retried on the next cycle. -/
theorem ledger_independent_of_dispatch (ok ok' : String → Bool) (now : ℚ)
    (fetch : FetchResult) (store : Store) :
    (check_new_coins ok now fetch store).map (fun r => (r.store, r.attempts)) =
      (check_new_coins ok' now fetch store).map (fun r => (r.store, r.attempts)) := by
  unfold check_new_coins
  cases hl : load_alerted_coins store with
  | error e => rfl
  | ok alerted =>
    cases fetch with
    | failure => rfl
    | success pairs =>
      have h := runPairs_dispatch_agnostic ok ok' now pairs
        ⟨alerted, [], []⟩ ⟨alerted, [], []⟩ rfl rfl
      rcases h1 : runPairs ok now pairs ⟨alerted, [], []⟩ with e | st <;>
        rcases h2 : runPairs ok' now pairs ⟨alerted, [], []⟩ with e' | st' <;>
        rw [h1, h2] at h <;> simp [resultsAgree] at h
      · simp [h1, h2, h]
      · simp [h1, h2, h.1, h.2]
        rfl

/-- Counterexample to C2 at a concrete input: a pair created 10 minutes in the
future (age = −10 minutes, strictly negative) passes the filter — the code
checks only `age_in_minutes <= 60` — and an alert is emitted and persisted. -/
theorem negative_age_alerted_cex :
    ((0 : ℚ) - ((600000 : Int) : ℚ) / 1000) / 60 < 0 ∧
    check_new_coins (fun _ => true) 0
        (.success [mkSnapshot "FUTCOIN" 600000 600000 "u"]) .absent
      = .ok ⟨.good ["FUTCOIN"], ["FUTCOIN"], ["FUTCOIN"]⟩ := by
  constructor
  · norm_num
  · simp [check_new_coins, load_alerted_coins, runPairs, evalPair, mkSnapshot,
      save_alerted_coins]
    norm_num [Finset.sort_singleton]

/-- C2 (amended): the age check is only an upper bound. A candidate whose age
is strictly negative (creation timestamp in the future) is still selected and
alerted, provided the other checks pass; the code has no `0 ≤ age` test. -/
theorem age_check_has_no_lower_bound (now : ℚ) (L : Finset String) (n u : String)
    (ts : Int) (v : ℚ) (hts : ts ≠ 0)
    (hage : (now - (ts : ℚ) / 1000) / 60 < 0) (hv : 500000 < v) (hmem : n ∉ L) :
    evalPair now L (mkSnapshot n v ts u) = .ok (.alert n v u) := by
  rw [evalPair_mkSnapshot now L n v ts u hts,
    if_pos ⟨hage.le.trans (by norm_num), hv, hmem⟩]

/-- Witness for the amended C2 theorem at a concrete negative-age input. -/
theorem age_check_has_no_lower_bound_witness :
    evalPair 0 ∅ (mkSnapshot "FUT" 600000 600000 "u")
      = .ok (.alert "FUT" 600000 "u") :=
  age_check_has_no_lower_bound 0 ∅ "FUT" "u" 600000 600000 (by norm_num)
    (by norm_num) (by norm_num) (by simp)

/-- C3: the volume threshold is an exclusive lower bound. With every other
check passing, a snapshot whose 24-hour volume is exactly `500000` is not
selected, and the same snapshot with any volume strictly greater than `500000`
(for example `500000.01`) is selected and alerted. -/
theorem volume_threshold_exclusive (now : ℚ) (L : Finset String) (n u : String)
    (ts : Int) (v : ℚ) (hts : ts ≠ 0)
    (hage : (now - (ts : ℚ) / 1000) / 60 ≤ 60) (hmem : n ∉ L) :
    evalPair now L (mkSnapshot n 500000 ts u) = .ok .skip ∧
    (500000 < v → evalPair now L (mkSnapshot n v ts u) = .ok (.alert n v u)) := by
  constructor
  · rw [evalPair_mkSnapshot now L n 500000 ts u hts, if_neg]
    rintro ⟨_, hlt, _⟩
    exact lt_irrefl _ hlt
  · intro hv
    rw [evalPair_mkSnapshot now L n v ts u hts, if_pos ⟨hage, hv, hmem⟩]

/-- Witness for C3 at the boundary: volume `500000` is skipped, volume
`500000 + 1/100` is alerted. -/
theorem volume_threshold_exclusive_witness :
    evalPair 600 ∅ (mkSnapshot "COIN" 500000 600000 "u") = .ok .skip ∧
    evalPair 600 ∅ (mkSnapshot "COIN" (500000 + 1 / 100) 600000 "u")
      = .ok (.alert "COIN" (500000 + 1 / 100) "u") := by
  have h := volume_threshold_exclusive 600 ∅ "COIN" "u" 600000 (500000 + 1 / 100)
    (by norm_num) (by norm_num) (by simp)
  exact ⟨h.1, h.2 (by norm_num)⟩

/-- C4: within-batch deduplication. If the same identifier occurs twice in one
batch and both occurrences pass all filter checks against the loaded ledger,
exactly one `send_alert` invocation happens for it in that cycle (the first
occurrence adds the name to the in-memory set, so the second fails the
membership check). -/
theorem within_batch_dedup (ok : String → Bool) (now : ℚ) (L : Finset String)
    (p q : PairSnapshot) (n : String) (v v' : ℚ) (u u' : String)
    (h1 : evalPair now L p = .ok (.alert n v u))
    (h2 : evalPair now L q = .ok (.alert n v' u')) :
    runPairs ok now [p, q] ⟨L, [], []⟩ =
      .ok ⟨insert n L, [n], if ok n then [n] else []⟩ := by
  have hskip : evalPair now (insert n L) q = .ok .skip :=
    evalPair_mem_skip (insert n L) h2 (Finset.mem_insert_self n L)
  simp [runPairs, h1, hskip]

/-- Witness for C4: a batch containing the same qualifying pair twice produces
exactly one notification attempt. -/
theorem within_batch_dedup_witness :
    runPairs (fun _ => true) 600
        [mkSnapshot "DUP" 600000 600000 "u", mkSnapshot "DUP" 600000 600000 "u"]
        ⟨∅, [], []⟩
      = .ok ⟨{"DUP"}, ["DUP"], ["DUP"]⟩ := by
  have halert : evalPair 600 ∅ (mkSnapshot "DUP" 600000 600000 "u")
      = .ok (.alert "DUP" 600000 "u") := by
    rw [evalPair_mkSnapshot 600 ∅ "DUP" 600000 600000 "u" (by norm_num), if_pos]
    exact ⟨by norm_num, by norm_num, by simp⟩
  have h := within_batch_dedup (fun _ => true) 600 ∅ _ _ "DUP" 600000 600000
    "u" "u" halert halert
  simpa using h

/-- Counterexample to C5 at concrete inputs: a Solana pair with no `baseToken`
key raises `KeyError` during per-candidate evaluation (the code indexes
`pair["baseToken"]["name"]` unguarded), and one whose `volume.h24` is not
convertible by `float` raises `ValueError` — evaluation does not merely skip. -/
theorem missing_base_token_raises_cex :
    evalPair 600 ∅
        { chainId := some "solana", baseToken := none,
          volume := some ⟨some (.num 600000)⟩, pairCreatedAt := some 600000,
          url := some "u" }
      = .error (.keyError "baseToken") ∧
    evalPair 600 ∅
        { chainId := some "solana", baseToken := some ⟨some "BADVOL"⟩,
          volume := some ⟨some .nonNumeric⟩, pairCreatedAt := some 600000,
          url := some "u" }
      = .error .valueError := by
  constructor <;> simp [evalPair]

/-- C5 (amended): per-candidate evaluation of a target-chain pair raises
`KeyError` when `baseToken` or its `name` is missing and `ValueError` when the
volume value cannot be converted to a number; it raises nothing when the name
is present and the volume converts (the fields read through `.get` — chainId,
volume, pairCreatedAt, url — degrade gracefully, the others do not). -/
theorem evalPair_error_behaviour (now : ℚ) (L : Finset String) (p : PairSnapshot)
    (hc : p.chainId = some "solana") :
    (p.baseToken = none → evalPair now L p = .error (.keyError "baseToken")) ∧
    (∀ bt, p.baseToken = some bt → bt.name = none →
      evalPair now L p = .error (.keyError "name")) ∧
    (∀ bt nm, p.baseToken = some bt → bt.name = some nm →
      (p.volume.getD ⟨none⟩).h24.getD (.num 0) = .nonNumeric →
      evalPair now L p = .error .valueError) ∧
    (∀ bt nm v, p.baseToken = some bt → bt.name = some nm →
      (p.volume.getD ⟨none⟩).h24.getD (.num 0) = .num v →
      ∃ a, evalPair now L p = .ok a) := by
  refine ⟨?_, ?_, ?_, ?_⟩
  · intro hb
    simp [evalPair, hc, hb]
  · intro bt hb hn
    simp [evalPair, hc, hb, hn]
  · intro bt nm hb hn hw
    simp [evalPair, hc, hb, hn, hw]
  · intro bt nm v hb hn hw
    simp only [evalPair, hc, hb, hn, hw]
    split
    · exact ⟨.skip, rfl⟩
    · split
      · exact ⟨.skip, rfl⟩
      · split
        · exact ⟨_, rfl⟩
        · exact ⟨.skip, rfl⟩

/-- Witness for the amended C5 theorem: a pair whose `baseToken` object lacks
the `name` key raises `KeyError` for the missing name. -/
theorem evalPair_error_behaviour_witness :
    evalPair 600 ∅
        { chainId := some "solana", baseToken := some ⟨none⟩,
          volume := some ⟨some (.num 600000)⟩, pairCreatedAt := some 600000,
          url := some "u" }
      = .error (.keyError "name") :=
  (evalPair_error_behaviour 600 ∅ _ rfl).2.1 ⟨none⟩ rfl rfl

/-- C6: on fetch failure (a `requests.RequestException` from the HTTP call),
the cycle performs no processing: it returns normally with zero `send_alert`
invocations, and the ledger file is exactly as before (no save happens).  The
hypothesis that the ledger loaded records that the cycle reached the fetch at
all — `load_alerted_coins` runs before the `try` in the code. -/
theorem fetch_failure_no_effect (ok : String → Bool) (now : ℚ) (store : Store)
    (s0 : Finset String) (hload : load_alerted_coins store = .ok s0) :
    check_new_coins ok now .failure store = .ok ⟨store, [], []⟩ := by
  simp [check_new_coins, hload]

/-- Witness for C6 with a concrete pre-existing ledger file. -/
theorem fetch_failure_no_effect_witness :
    check_new_coins (fun _ => true) 600 .failure (.good ["OLD"])
      = .ok ⟨.good ["OLD"], [], []⟩ :=
  fetch_failure_no_effect (fun _ => true) 600 (.good ["OLD"]) (["OLD"].toFinset)
    (by simp [load_alerted_coins])

/-- Counterexample to C7 at a concrete input: with a corrupt ledger file and a
batch containing a qualifying pair, the cycle does not proceed with an empty
set — it aborts with the uncaught `JSONDecodeError` and alerts nothing, whereas
the same cycle against an absent (hence empty) ledger proceeds and alerts. -/
theorem corrupt_store_not_treated_as_empty_cex :
    check_new_coins (fun _ => true) 600
        (.success [mkSnapshot "NEWCOIN" 600000 600000 "u"]) .corrupt
      = .error .jsonDecodeError ∧
    check_new_coins (fun _ => true) 600
        (.success [mkSnapshot "NEWCOIN" 600000 600000 "u"]) .absent
      = .ok ⟨.good ["NEWCOIN"], ["NEWCOIN"], ["NEWCOIN"]⟩ := by
  constructor
  · rfl
  · simp [check_new_coins, load_alerted_coins, runPairs, evalPair, mkSnapshot,
      save_alerted_coins]
    norm_num [Finset.sort_singleton]

/-- C7 (amended): a corrupt ledger file is not treated as an empty set; the
`JSONDecodeError` from `json.load` propagates out of `load_alerted_coins` and
aborts the whole cycle before any fetch processing, notification or save —
the fail-the-cycle policy that §4.1 also admits, by exception propagation. -/
theorem corrupt_store_aborts_cycle (ok : String → Bool) (now : ℚ)
    (fetch : FetchResult) :
    check_new_coins ok now fetch .corrupt = .error .jsonDecodeError := rfl

/-- C8: ledger round-trip. For every set `S` of identifier strings, loading
immediately after `save(S)` yields exactly `S`, and loading when no file
exists yields the empty set. -/
theorem ledger_round_trip :
    (∀ S : Finset String, load_alerted_coins (save_alerted_coins S) = .ok S) ∧
    load_alerted_coins .absent = .ok ∅ := by
  refine ⟨fun S => ?_, rfl⟩
  simp [load_alerted_coins, save_alerted_coins, Finset.sort_toFinset]

/-- C9: no re-alerting, and the ledger only grows. In a completed cycle, no
identifier present in the loaded ledger is ever passed to `send_alert`, and
the set persisted at the end of the cycle is a superset of the loaded set. -/
theorem no_realert_and_ledger_monotone (ok : String → Bool) (now : ℚ)
    (pairs : List PairSnapshot) (store : Store) (s0 : Finset String)
    (res : WorldResult)
    (hload : load_alerted_coins store = .ok s0)
    (hrun : check_new_coins ok now (.success pairs) store = .ok res) :
    (∀ x ∈ s0, x ∉ res.attempts) ∧
    ∃ ids, res.store = .good ids ∧ s0 ⊆ ids.toFinset := by
  simp only [check_new_coins, hload] at hrun
  cases hr : runPairs ok now pairs ⟨s0, [], []⟩ with
  | error e => rw [hr] at hrun; cases hrun
  | ok st =>
    rw [hr] at hrun
    injection hrun with hres
    subst hres
    obtain ⟨hsub, hatt⟩ := runPairs_ledger_attempts ok now pairs ⟨s0, [], []⟩ st hr
    constructor
    · intro x hx hmem
      rcases hatt x hmem with h1 | ⟨h2, _⟩
      · simp at h1
      · exact h2 hx
    · exact ⟨st.ledger.sort (· ≤ ·), rfl, by simpa [Finset.sort_toFinset] using hsub⟩

/-- Witness for C9: a ledger already containing `"X"` suppresses the alert for
a qualifying `"X"` snapshot, and the persisted set still contains `"X"`. -/
theorem no_realert_witness :
    (∀ x ∈ (["X"] : List String).toFinset,
      x ∉ (WorldResult.mk (.good ["X"]) [] []).attempts) ∧
    ∃ ids, (WorldResult.mk (.good ["X"]) [] []).store = .good ids ∧
      (["X"] : List String).toFinset ⊆ ids.toFinset := by
  refine no_realert_and_ledger_monotone (fun _ => true) 600
    [mkSnapshot "X" 600000 600000 "u"] (.good ["X"]) (["X"].toFinset)
    ⟨.good ["X"], [], []⟩ (by simp [load_alerted_coins]) ?_
  simp [check_new_coins, load_alerted_coins, runPairs, evalPair, mkSnapshot,
    save_alerted_coins]

/-- C10: persistence is unconditional on a successful fetch. Whenever the pair
loop completes, `check_new_coins` ends by rewriting the ledger file wholesale
with the full in-memory set — the save is not gated on any identifier having
been added in the cycle (take `st.ledger = s0` for a cycle with zero
additions). -/
theorem save_unconditional_on_fetch_success (ok : String → Bool) (now : ℚ)
    (pairs : List PairSnapshot) (store : Store) (s0 : Finset String)
    (st : CycleState)
    (hload : load_alerted_coins store = .ok s0)
    (hrun : runPairs ok now pairs ⟨s0, [], []⟩ = .ok st) :
    check_new_coins ok now (.success pairs) store
      = .ok ⟨save_alerted_coins st.ledger, st.attempts, st.sends⟩ := by
  simp [check_new_coins, hload, hrun]

/-- Witness for C10: an empty batch against an absent file adds nothing, yet
the file is written (it comes into existence as the empty JSON array). -/
theorem save_unconditional_witness :
    check_new_coins (fun _ => true) 600 (.success []) .absent
      = .ok ⟨.good [], [], []⟩ := by
  have h := save_unconditional_on_fetch_success (fun _ => true) 600 [] .absent
    ∅ ⟨∅, [], []⟩ rfl rfl
  simpa [save_alerted_coins, Finset.sort_empty] using h

end SolScout
